import Mathlib

/-!
Shallow embedding of the VirtualBox machinery module
(cuckoo/machinery/virtualbox.py) of this repository.

External process execution is modelled by environment records that carry the
outcome each child process would produce (launch failure, exit code, captured
stdout/stderr); every operation returns the list of externally visible
actions it performs (commands issued, registry status reports, status waits,
forced terminations) together with its outcome (normal return or a raised
exception).
-/

namespace VBox

/-- The double-quote character (code point 34). -/
def qc : Char := Char.ofNat 34

/-- The newline character (code point 10). -/
def nlc : Char := Char.ofNat 10

/-- One-character string holding a double quote. -/
def qs : String := String.mk [qc]

/-- Helper for `splitCh`: prepend a character to the first piece. -/
def consHead (x : Char) : List (List Char) → List (List Char)
  | [] => [[x]]
  | y :: ys => (x :: y) :: ys

/-- Split a character list at every occurrence of `c`, Python `str.split`
semantics: `n` separators yield `n + 1` (possibly empty) pieces. -/
def splitCh (c : Char) : List Char → List (List Char)
  | [] => [[]]
  | x :: xs => if x = c then [] :: splitCh c xs else consHead x (splitCh c xs)

/-- Python `s.split(c)` for a one-character separator. -/
def pySplit (c : Char) (s : String) : List String :=
  (splitCh c s.data).map String.mk

/-- Python `s.count(c)` for a single character. -/
def pyCount (c : Char) (s : String) : Nat := s.data.count c

/-- Python `c in s` for a single character. -/
def pyContains (c : Char) (s : String) : Bool := s.data.contains c

/-- Python `s.startswith(p)`. -/
def pyStartsWith (p s : String) : Bool := p.data.isPrefixOf s.data

/-- Python `s.lower()`. -/
def pyLower (s : String) : String := String.mk (s.data.map Char.toLower)

/-- Python `s.upper()`. -/
def pyUpper (s : String) : String := String.mk (s.data.map Char.toUpper)

/-- VM state constant `SAVED` (virtualbox.py line 22). -/
def SAVED : String := "saved"

/-- VM state constant `RUNNING` (virtualbox.py line 23). -/
def RUNNING : String := "running"

/-- VM state constant `POWEROFF` (virtualbox.py line 24). -/
def POWEROFF : String := "poweroff"

/-- VM state constant `ABORTED` (virtualbox.py line 25). -/
def ABORTED : String := "aborted"

/-- VM state constant `ERROR` (virtualbox.py line 26): the sentinel string
`"machete"` meaning the status could not be determined. -/
def ERROR : String := "machete"

/-- Outcome of a child process that did launch: exit code plus the captured
standard output and standard error (the `CommandOutcome` of the spec). -/
structure ProcOutcome where
  returncode : Int
  stdout : String
  stderr : String
deriving DecidableEq

/-- The expression `line.split(quote)[1]` shared by `_status`
(virtualbox.py line 258) and `_list` (line 210): the piece of the line
between the first quote character and the second one (or the end of the
line when no second quote exists). -/
def lineLabel (line : String) : String := (pySplit qc line).getD 1 ""

/-- The test `_status` applies to each line of the query output
(virtualbox.py line 257): the line starts with `VMState=` and contains
exactly two quote characters. -/
def vmStateLine (line : String) : Bool :=
  pyStartsWith "VMState=" line && (pyCount qc line == 2)

/-- The value `_status` extracts from a matching line (virtualbox.py
line 258): `line.split(quote)[1].lower()`. -/
def lineStatus (line : String) : String :=
  pyLower (lineLabel line)

/-- The parsing loop of `_status` (virtualbox.py lines 256-259): fold over
the lines of the output, overwriting `status` at every matching line, so the
last matching line wins. -/
def parseStatus (output : String) : Option String :=
  (pySplit nlc output).foldl
    (fun st line => if vmStateLine line then some (lineStatus line) else st)
    none

/-- The result of `_status` (virtualbox.py lines 221-268) as a function of
the status-query process outcome (`none` models an `OSError` at launch).
`some s` means the string `s` is reported to the registry and returned;
`none` means `_status` raises `CuckooMachineError` ("Unable to get status").
A Python falsy (empty) parsed value also leads to the raise, because the
final guard is the truthiness test `if status:`. -/
def vbStatus (outcome : Option ProcOutcome) : Option String :=
  match outcome with
  | none => some ERROR
  | some oc =>
      if oc.returncode ≠ 0 then some ERROR
      else
        match parseStatus oc.stdout with
        | some s => if s = "" then none else some s
        | none => none

/-- An externally visible action of the controller: an external command
issued (its argument vector, as built in virtualbox.py), a status report to
the registry (`set_status`, provided by the `Machinery` base class), a
blocking wait for one of a set of states (`_wait_status`, provided by the
base class), or a forced termination of a control process
(`proc.terminate()`). -/
inductive Action where
  | exec (args : List String)
  | setStatus (label status : String)
  | waitStatus (label : String) (targets : List String)
  | terminate
deriving DecidableEq

/-- Outcome of a controller operation: normal return, a raised
`CuckooMachineError`, or a raised (uncaught) `OSError`. -/
inductive Outcome where
  | ok
  | machineError (msg : String)
  | osError (msg : String)
deriving DecidableEq

/-- Result of a `_status` call: the status string returned, or the message
of the raised `CuckooMachineError`. -/
inductive StatusOutcome where
  | ok (status : String)
  | raised (msg : String)
deriving DecidableEq

/-- A full `_status` run: the query command is issued; on success the
status is reported to the registry via `set_status` and returned
(virtualbox.py lines 262-264); otherwise `CuckooMachineError` is raised
(lines 266-268). -/
def statusRun (vbox label : String) (outcome : Option ProcOutcome) :
    List Action × StatusOutcome :=
  let query : Action := .exec [vbox, "showvminfo", label, "--machinereadable"]
  match vbStatus outcome with
  | some s => ([query, .setStatus label s], .ok s)
  | none => ([query], .raised ("Unable to get status for " ++ label))

/-- The external commands among a list of actions. -/
def execCmds (acts : List Action) : List (List String) :=
  acts.filterMap fun a =>
    match a with
    | .exec c => some c
    | _ => none

/-- Outcome of a `subprocess.check_call` invocation: the child failed to
launch (`OSError`), exited non-zero (`CalledProcessError`), or succeeded. -/
inductive CallOutcome where
  | launchFail
  | nonzero
  | success
deriving DecidableEq

/-- `dump_pcap` (virtualbox.py lines 116-141): two `check_call` steps, each
wrapped in a `try` that catches only `CalledProcessError` (logging at
critical level and returning). A launch failure raises `OSError`, which no
handler catches, so it propagates to the caller. -/
def dump_pcap (vbox : String) (o1 o2 : CallOutcome) (label pcapPath : String) :
    List Action × Outcome :=
  let a1 : Action := .exec [vbox, "controlvm", label, "nictracefile1", pcapPath]
  match o1 with
  | .launchFail => ([a1], .osError "nictracefile1")
  | .nonzero => ([a1], .ok)
  | .success =>
      let a2 : Action := .exec [vbox, "controlvm", label, "nictrace1", "on"]
      match o2 with
      | .launchFail => ([a1, a2], .osError "nictrace1")
      | .nonzero => ([a1, a2], .ok)
      | .success => ([a1, a2], .ok)

/-- Environment of a `start(label, task)` call: configuration
(`options.virtualbox.path`, `options.virtualbox.mode`), the machine record
(`machine.snapshot`, whether `"nictrace"` occurs in `machine.options`), the
derived pcap path (`pcap_path(task.id)`, provided by the base class), and
the outcome each child process would produce. `restoreOutcome = none` and
`startOutcome = none` model an `OSError` at launch; otherwise they carry the
restore exit code and the captured stderr of the start command. The two
`waitOk` flags tell whether the corresponding `_wait_status` call (external
collaborator) returns before its own timeout. -/
structure StartEnv where
  vboxPath : String
  mode : String
  statusOutcome : Option ProcOutcome
  snapshot : Option String
  nictraceOpt : Bool
  pcapPath : String
  restoreOutcome : Option Int
  startOutcome : Option String
  wait1Ok : Bool
  wait2Ok : Bool
  pcap1 : CallOutcome
  pcap2 : CallOutcome

/-- The snapshot-restore argument vector built by `start` (virtualbox.py
lines 60-74): `restore <name>` when the machine has a snapshot configured,
`restorecurrent` otherwise. -/
def restoreArgs (env : StartEnv) (label : String) : List String :=
  [env.vboxPath, "snapshot", label] ++
    (match env.snapshot with
     | some snap => ["restore", snap]
     | none => ["restorecurrent"])

/-- The part of `start` that runs after the `AlreadyRunning` precondition
check has passed (virtualbox.py lines 59-114): snapshot restore, wait for
`SAVED`, start command, wait for `RUNNING`, then optionally `dump_pcap`. -/
def startAfter (env : StartEnv) (label : String) : List Action × Outcome :=
  let a0 : List Action := [.exec (restoreArgs env label)]
  match env.restoreOutcome with
  | none => (a0, .machineError "VBoxManage failed restoring the machine")
  | some ret =>
      if ret ≠ 0 then
        (a0, .machineError
          "VBoxManage exited with error trying to restore the machine's snapshot")
      else
        let a1 := a0 ++ [Action.waitStatus label [SAVED]]
        if !env.wait1Ok then
          (a1, .machineError "Timeout hit while for machine to change status")
        else
          let a2 := a1 ++
            [Action.exec [env.vboxPath, "startvm", label, "--type", env.mode]]
          match env.startOutcome with
          | none =>
              (a2, .machineError
                ("VBoxManage failed starting the machine in " ++
                  pyUpper env.mode ++ " mode"))
          | some err =>
              if err ≠ "" then
                (a2, .machineError
                  ("VBoxManage failed starting the machine in " ++
                    pyUpper env.mode ++ " mode: " ++ err))
              else
                let a3 := a2 ++ [Action.waitStatus label [RUNNING]]
                if !env.wait2Ok then
                  (a3, .machineError
                    "Timeout hit while for machine to change status")
                else if env.nictraceOpt then
                  let p := dump_pcap env.vboxPath env.pcap1 env.pcap2
                    label env.pcapPath
                  (a3 ++ p.1, p.2)
                else
                  (a3, .ok)

/-- `start(label, task)` (virtualbox.py lines 46-114): a fresh status query
first; a status equal to `RUNNING` fails the precondition with
`CuckooMachineError` before any further command; a raise inside `_status`
propagates; otherwise the start sequence of `startAfter` runs. -/
def start (env : StartEnv) (label : String) : List Action × Outcome :=
  let s := statusRun env.vboxPath label env.statusOutcome
  match s.2 with
  | .raised m => (s.1, .machineError m)
  | .ok st =>
      if st = RUNNING then
        (s.1, .machineError ("Trying to start an already started vm " ++ label))
      else
        let rest := startAfter env label
        (s.1 ++ rest.1, rest.2)

/-- Environment of a `stop(label)` call: configuration, the status-query
outcome, the configured `vm_state` timeout `T` (seconds), whether the
poweroff command launches (`false` models an `OSError`), the poll trace of
the poweroff control process (`poll k = true` iff `proc.poll()` reports the
process as exited at the `k`-th poll), and whether the terminal
`_wait_status` call returns before its own timeout. -/
structure StopEnv where
  vboxPath : String
  statusOutcome : Option ProcOutcome
  T : Nat
  poweroffLaunchOk : Bool
  poll : Nat → Bool
  waitOk : Bool

/-- The polling loop of `stop` (virtualbox.py lines 168-175): while the
control process has not exited, sleep one second while fewer than `T`
seconds have elapsed, and afterwards call `proc.terminate()` on every
iteration — the loop has no break, so it leaves only when a poll reports
the process as exited. `fuel` bounds the number of polls modelled; the
result is the list of emitted `terminate` actions together with the final
value of the `stop_me` counter, or `none` when `fuel` runs out. -/
def stopLoop (T : Nat) (poll : Nat → Bool) :
    Nat → Nat → Nat → Option (List Action × Nat)
  | 0, _, _ => none
  | fuel + 1, idx, stopMe =>
      if poll idx then some ([], stopMe)
      else if stopMe < T then stopLoop T poll fuel (idx + 1) (stopMe + 1)
      else
        match stopLoop T poll fuel (idx + 1) stopMe with
        | none => none
        | some (acts, sm) => some (Action.terminate :: acts, sm)

/-- `stop(label)` (virtualbox.py lines 143-186): a fresh status query
first; a status in `{POWEROFF, ABORTED}` fails the precondition with
`CuckooMachineError` before any further command; a raise inside `_status`
propagates; otherwise the poweroff command is launched (an `OSError` at
launch becomes `CuckooMachineError`), the polling loop runs, a non-zero
exit before the timeout is only logged, and finally `_wait_status` on
`{POWEROFF, ABORTED, SAVED}` is invoked. `none` models a run whose polling
loop exceeds `fuel` polls. -/
def stop (env : StopEnv) (label : String) (fuel : Nat) :
    Option (List Action × Outcome) :=
  let s := statusRun env.vboxPath label env.statusOutcome
  match s.2 with
  | .raised m => some (s.1, .machineError m)
  | .ok st =>
      if st = POWEROFF ∨ st = ABORTED then
        some (s.1, .machineError ("Trying to stop an already stopped vm " ++ label))
      else if !env.poweroffLaunchOk then
        some (s.1 ++ [Action.exec [env.vboxPath, "controlvm", label, "poweroff"]],
          .machineError "VBoxManage failed powering off the machine")
      else
        match stopLoop env.T env.poll fuel 0 0 with
        | none => none
        | some (tacts, _) =>
            some (s.1 ++ [Action.exec [env.vboxPath, "controlvm", label, "poweroff"]]
                ++ tacts ++ [Action.waitStatus label [POWEROFF, ABORTED, SAVED]],
              if env.waitOk then .ok
              else .machineError "Timeout hit while for machine to change status")

/-- The loop body of `_list` (virtualbox.py lines 206-218): skip lines
without a quote character, take `line.split(quote)[1]` as the label, skip
the reserved label `<inaccessible>` with a warning, append everything
else. -/
def listStep (machines : List String) (line : String) : List String :=
  if pyContains qc line then
    if lineLabel line = "<inaccessible>" then machines
    else machines ++ [lineLabel line]
  else machines

/-- The parsing part of `_list` (virtualbox.py lines 205-219): fold the
loop body over the lines of the inventory output. -/
def listParse (output : String) : List String :=
  (pySplit nlc output).foldl listStep []

/-- The labels `_list` keeps, stated the way the spec puts it: of the lines
containing at least one quote character, the first quoted substring
(`split(quote)[1]`), with the reserved label `<inaccessible>` removed,
order preserved. -/
def listSpecLines (ls : List String) : List String :=
  ((ls.filter (pyContains qc)).map lineLabel).filter
    (fun lab => lab != "<inaccessible>")

/-- The spec-side description of `_list` parsing, to be compared with
`listParse`. -/
def listSpec (output : String) : List String :=
  listSpecLines (pySplit nlc output)

/-- Environment of a `dump_memory(label, path)` call: configuration, the
outcome of the version probe (`none` models an `OSError` at launch), and
whether the final `debugvm` command launches. -/
structure DumpMemEnv where
  vboxPath : String
  versionOutcome : Option ProcOutcome
  dumpLaunchOk : Bool

/-- `dump_memory(label, path)` (virtualbox.py lines 270-321): probe the
tool version (`OSError` at launch becomes `CuckooMachineError`, a non-zero
exit is only logged), pick `dumpvmcore` when the captured stdout starts
with `"5"` and `dumpguestcore` otherwise, then run the `debugvm` command
(its exit code is not checked; only an `OSError` at launch becomes
`CuckooMachineError`). -/
def dump_memory (env : DumpMemEnv) (label path : String) :
    List Action × Outcome :=
  let probe : Action := .exec [env.vboxPath, "-v"]
  match env.versionOutcome with
  | none => ([probe], .machineError "VBoxManage failed return it's version")
  | some oc =>
      let dumpcmd := if pyStartsWith "5" oc.stdout then "dumpvmcore"
        else "dumpguestcore"
      let acts := [probe,
        Action.exec [env.vboxPath, "debugvm", label, dumpcmd, "--filename", path]]
      if env.dumpLaunchOk then (acts, .ok)
      else
        (acts, .machineError
          ("VBoxManage failed to take a memory dump of the machine with label "
            ++ label))

theorem foldl_lastMatch (p : String → Bool) (f : String → String) :
    ∀ (ls : List String) (init : Option String),
      ls.foldl (fun st line => if p line then some (f line) else st) init
        = match ((ls.filter p).reverse.head?) with
          | some l => some (f l)
          | none => init := by
  intro ls
  induction ls with
  | nil => intro init; rfl
  | cons a t ih =>
      intro init
      rw [List.foldl_cons, ih]
      by_cases hp : p a
      · rw [List.filter_cons_of_pos hp]
        rw [if_pos hp]
        cases h : (t.filter p).reverse with
        | nil => simp [h]
        | cons y ys => simp [h]
      · rw [List.filter_cons_of_neg hp]
        rw [if_neg hp]

theorem parseStatus_eq (output : String) :
    parseStatus output
      = (((pySplit nlc output).filter vmStateLine).reverse.head?).map lineStatus := by
  rw [parseStatus, foldl_lastMatch]
  cases ((pySplit nlc output).filter vmStateLine).reverse.head? <;> rfl

theorem listFold_acc (ls : List String) :
    ∀ acc, ls.foldl listStep acc = acc ++ listSpecLines ls := by
  induction ls with
  | nil => intro acc; simp [listSpecLines]
  | cons l t ih =>
      intro acc
      rw [List.foldl_cons, ih]
      by_cases hq : pyContains qc l
      · by_cases hlab : lineLabel l = "<inaccessible>"
        · simp [listStep, hq, hlab, listSpecLines, List.filter_cons]
        · simp [listStep, hq, hlab, listSpecLines, List.filter_cons,
            List.append_assoc]
      · simp [listStep, hq, listSpecLines, List.filter_cons]

theorem splitCh_of_not_mem (c : Char) (l : List Char) (h : c ∉ l) :
    splitCh c l = [l] := by
  induction l with
  | nil => rfl
  | cons x xs ih =>
      have hx : ¬(x = c) := fun e => h (e ▸ List.mem_cons_self x xs)
      rw [splitCh, if_neg hx, ih (fun hm => h (List.mem_cons_of_mem _ hm))]
      rfl

theorem splitCh_append (c : Char) (l1 l2 : List Char) (h : c ∉ l1) :
    splitCh c (l1 ++ c :: l2) = l1 :: splitCh c l2 := by
  induction l1 with
  | nil => simp [splitCh]
  | cons x xs ih =>
      have hx : ¬(x = c) := fun e => h (e ▸ List.mem_cons_self x xs)
      rw [List.cons_append, splitCh, if_neg hx,
        ih (fun hm => h (List.mem_cons_of_mem _ hm))]
      rfl

theorem pyStartsWith_five (s : String) :
    pyStartsWith "5" s = true ↔ s.data.head? = some '5' := by
  rw [pyStartsWith]
  have h5 : ("5" : String).data = ['5'] := rfl
  rw [h5]
  cases s.data with
  | nil => simp [List.isPrefixOf]
  | cons a t =>
      simp only [List.isPrefixOf, Bool.and_eq_true, beq_iff_eq,
        List.head?_cons, Option.some.injEq]
      constructor
      · rintro ⟨h, _⟩; exact h.symm
      · intro h; exact ⟨h.symm, trivial⟩

theorem stopLoop_run (T k : Nat) (poll : Nat → Bool)
    (hk : poll k = true) (hfirst : ∀ j, j < k → poll j = false) :
    ∀ fuel idx, idx ≤ k → k + 1 - idx ≤ fuel →
      stopLoop T poll fuel idx (min idx T)
        = some (List.replicate (k - max idx T) Action.terminate, min k T) := by
  intro fuel
  induction fuel with
  | zero => intro idx hik hf; omega
  | succ f ih =>
      intro idx hik hf
      rcases Nat.lt_or_eq_of_le hik with hlt | heq
      · have hp : poll idx = false := hfirst idx hlt
        rw [stopLoop, hp]
        simp only [Bool.false_eq_true, if_false]
        by_cases hm : min idx T < T
        · rw [if_pos hm]
          have h1 : min idx T + 1 = min (idx + 1) T := by omega
          rw [h1, ih (idx + 1) hlt (by omega)]
          have h2 : k - max (idx + 1) T = k - max idx T := by omega
          rw [h2]
        · rw [if_neg hm]
          have hTidx : T ≤ idx := by omega
          have h1 : min idx T = min (idx + 1) T := by omega
          rw [h1, ih (idx + 1) hlt (by omega)]
          have h2 : k - max idx T = (k - max (idx + 1) T) + 1 := by omega
          rw [h2, List.replicate_succ]
      · subst heq
        rw [stopLoop, hk]
        simp only [if_true]
        have h0 : idx - max idx T = 0 := by omega
        rw [h0, List.replicate_zero]

/-- Claim C1, counterexample: on a status query that exits zero with an
output containing no `VMState=` line (here `"foo\nbar"`), `_status` does
not return the `Error` sentinel — it raises `CuckooMachineError`
(modelled by `none`), contradicting the claim that the status operation
returns `Error` rather than raising in this case. -/
theorem C1_counterexample :
    vbStatus (some ⟨0, "foo\nbar", ""⟩) = none ∧
    (none : Option String) ≠ some ERROR := by decide

/-- Claim C1, amended: `_status` returns the `Error` sentinel when the
query process fails to launch or exits non-zero; when the process exits
zero it returns the lowercased quoted value of the last matching
`VMState="..."` line if that value is non-empty, and raises
`CuckooMachineError` (modelled by `none`) when no matching line exists or
the value is empty. -/
theorem C1_status_amended (oc : ProcOutcome) :
    (vbStatus none = some ERROR) ∧
    (oc.returncode ≠ 0 → vbStatus (some oc) = some ERROR) ∧
    (oc.returncode = 0 →
      ((pySplit nlc oc.stdout).filter vmStateLine).reverse.head? = none →
      vbStatus (some oc) = none) ∧
    (∀ l, oc.returncode = 0 →
      ((pySplit nlc oc.stdout).filter vmStateLine).reverse.head? = some l →
      (lineStatus l ≠ "" → vbStatus (some oc) = some (lineStatus l)) ∧
      (lineStatus l = "" → vbStatus (some oc) = none)) := by
  refine ⟨rfl, ?_, ?_, ?_⟩
  · intro h
    rw [vbStatus, if_pos h]
  · intro h0 hnone
    rw [vbStatus, if_neg (by simp [h0]), parseStatus_eq, hnone]
    rfl
  · intro l h0 hsome
    constructor
    · intro hne
      rw [vbStatus, if_neg (by simp [h0]), parseStatus_eq, hsome]
      simp [hne]
    · intro he
      rw [vbStatus, if_neg (by simp [h0]), parseStatus_eq, hsome]
      simp [he]

/-- Witness for the amended claim C1 at a concrete input: a query exiting
with code 1 yields the `Error` sentinel. -/
theorem C1_status_amended_witness :
    vbStatus (some ⟨1, "", ""⟩) = some ERROR :=
  (C1_status_amended ⟨1, "", ""⟩).2.1 (by decide)

/-- Claim C3, counterexample: when the first `check_call` of `dump_pcap`
fails to launch (an `OSError`, not a `CalledProcessError`), `dump_pcap`
raises to its caller instead of returning normally, contradicting the
claim that it returns normally for every outcome including launch
failure. -/
theorem C3_counterexample :
    (dump_pcap "VBoxManage" CallOutcome.launchFail CallOutcome.success
        "cuckoo1" "/tmp/dump.pcap").2 = Outcome.osError "nictracefile1" ∧
    Outcome.osError "nictracefile1" ≠ Outcome.ok := by decide

/-- Claim C3, amended: `dump_pcap` returns normally both on success and on
a non-zero exit of either step (only the logged severity differs), but a
launch failure (`OSError`) of the step being executed propagates to the
caller uncaught. -/
theorem C3_pcap_amended (vbox label path : String) (o1 o2 : CallOutcome) :
    (dump_pcap vbox o1 o2 label path).2 =
      if o1 = CallOutcome.launchFail then Outcome.osError "nictracefile1"
      else if o1 = CallOutcome.success ∧ o2 = CallOutcome.launchFail then
        Outcome.osError "nictrace1"
      else Outcome.ok := by
  cases o1 <;> cases o2 <;> simp [dump_pcap]

/-- Claim C6: `_list` returns, in order of first appearance, the
`split(quote)[1]` piece of every line containing at least one quote
character, skipping quoteless lines and the reserved label
`<inaccessible>`; on the four example lines it returns exactly
`[box1, box2]`. -/
theorem C6_list_parsing :
    (∀ output, listParse output = listSpec output) ∧
    listParse (qs ++ "box1" ++ qs ++ " {uuid}\nno-quotes-here\n" ++ qs ++
        "<inaccessible>" ++ qs ++ " {uuid}\n" ++ qs ++ "box2" ++ qs ++ " {uuid}")
      = ["box1", "box2"] := by
  constructor
  · intro output
    rw [listParse, listSpec, listFold_acc]
    rfl
  · decide

/-- Claim C8: the status operation is not confined to the five
`MachineState` constants: a query output with the line `VMState="Paused"`
makes `_status` report and return the string `"paused"`, which is none of
`saved`, `running`, `poweroff`, `aborted`, or the `Error` sentinel. -/
theorem C8_status_not_confined :
    statusRun "VBoxManage" "cuckoo1"
        (some ⟨0, "VMState=" ++ qs ++ "Paused" ++ qs, ""⟩)
      = ([Action.exec ["VBoxManage", "showvminfo", "cuckoo1", "--machinereadable"],
          Action.setStatus "cuckoo1" "paused"], StatusOutcome.ok "paused") ∧
    "paused" ∉ [SAVED, RUNNING, POWEROFF, ABORTED, ERROR] := by decide

/-- Claim C9: a line of the inventory output containing exactly one quote
character is not skipped by `_list`: its returned label is the entire text
following that quote character (no closing quote is required). -/
theorem C9_single_quote_line (l1 l2 : List Char)
    (h1 : qc ∉ l1) (h2 : qc ∉ l2) (hn1 : nlc ∉ l1) (hn2 : nlc ∉ l2)
    (hne : String.mk l2 ≠ "<inaccessible>") :
    listParse (String.mk (l1 ++ qc :: l2)) = [String.mk l2] := by
  have hnl : nlc ∉ l1 ++ qc :: l2 := by
    intro hm
    rcases List.mem_append.mp hm with h | h
    · exact hn1 h
    · rcases List.mem_cons.mp h with h | h
      · exact absurd h (by decide)
      · exact hn2 h
  have hq : pyContains qc (String.mk (l1 ++ qc :: l2)) = true := by
    show (l1 ++ qc :: l2).contains qc = true
    simp
  have hlab : lineLabel (String.mk (l1 ++ qc :: l2)) = String.mk l2 := by
    rw [lineLabel]
    show ((splitCh qc (l1 ++ qc :: l2)).map String.mk).getD 1 "" = _
    rw [splitCh_append qc l1 l2 h1, splitCh_of_not_mem qc l2 h2]
    rfl
  rw [listParse]
  show ((splitCh nlc (l1 ++ qc :: l2)).map String.mk).foldl listStep []
      = [String.mk l2]
  rw [splitCh_of_not_mem nlc _ hnl]
  show listStep [] (String.mk (l1 ++ qc :: l2)) = [String.mk l2]
  rw [listStep, if_pos hq, hlab, if_neg hne]
  rfl

/-- Claim C2, counterexample: a `stop` run with timeout `T = 1` whose
poweroff control process survives until the fourth poll. After the
timeout, `proc.terminate()` is called on every further iteration of the
polling loop — here twice, not exactly once, and polling continues after
the first termination — contradicting the claim that termination occurs
exactly once and polling stops after it. -/
theorem C2_counterexample :
    stop
        { vboxPath := "VBoxManage",
          statusOutcome := some ⟨0, "VMState=" ++ qs ++ "running" ++ qs, ""⟩,
          T := 1, poweroffLaunchOk := true, poll := fun j => decide (3 ≤ j),
          waitOk := true } "cuckoo1" 10 =
      some ([Action.exec ["VBoxManage", "showvminfo", "cuckoo1", "--machinereadable"],
             Action.setStatus "cuckoo1" "running",
             Action.exec ["VBoxManage", "controlvm", "cuckoo1", "poweroff"],
             Action.terminate, Action.terminate,
             Action.waitStatus "cuckoo1" [POWEROFF, ABORTED, SAVED]], Outcome.ok) ∧
    [Action.exec ["VBoxManage", "showvminfo", "cuckoo1", "--machinereadable"],
     Action.setStatus "cuckoo1" "running",
     Action.exec ["VBoxManage", "controlvm", "cuckoo1", "poweroff"],
     Action.terminate, Action.terminate,
     Action.waitStatus "cuckoo1" [POWEROFF, ABORTED, SAVED]].count Action.terminate
      = 2 ∧ (2 : Nat) ≠ 1 := by decide

/-- Claim C2, amended: when the poweroff control process has not exited by
the configured timeout (first successful poll at index `k > T`), the loop
calls `proc.terminate()` once per remaining poll — `k - T ≥ 1` times in
total, exactly once only when the process dies by the very next poll —
polling stops only when a poll reports the process gone, no exception is
raised for the timeout itself, and the terminal `_wait_status` on
`{POWEROFF, ABORTED, SAVED}` is still invoked afterwards. -/
theorem C2_stop_timeout_amended (env : StopEnv) (label : String) (fuel k : Nat)
    (hst : vbStatus env.statusOutcome = some RUNNING)
    (hlaunch : env.poweroffLaunchOk = true)
    (hk : env.poll k = true)
    (hfirst : ∀ j, j < k → env.poll j = false)
    (hkT : env.T < k)
    (hfuel : k + 1 ≤ fuel)
    (hwait : env.waitOk = true) :
    stop env label fuel =
      some ([Action.exec [env.vboxPath, "showvminfo", label, "--machinereadable"],
             Action.setStatus label RUNNING,
             Action.exec [env.vboxPath, "controlvm", label, "poweroff"]]
            ++ List.replicate (k - env.T) Action.terminate
            ++ [Action.waitStatus label [POWEROFF, ABORTED, SAVED]],
        Outcome.ok) ∧
    1 ≤ k - env.T := by
  constructor
  · have hloop := stopLoop_run env.T k env.poll hk hfirst fuel 0
      (by omega) (by omega)
    have hm0 : min 0 env.T = 0 := by omega
    have hM0 : max 0 env.T = env.T := by omega
    rw [hm0, hM0] at hloop
    simp only [stop, statusRun, hst]
    rw [if_neg (by decide : ¬(RUNNING = POWEROFF ∨ RUNNING = ABORTED))]
    rw [hlaunch]
    simp only [Bool.not_true, Bool.false_eq_true, if_false]
    rw [hloop, hwait]
    simp [List.append_assoc]
  · omega

/-- Witness for the amended claim C2 at a concrete input: timeout `T = 1`,
process exits at the fourth poll (`k = 3`), so terminate is called
`3 - 1 = 2` times and the terminal wait still happens. -/
theorem C2_stop_timeout_amended_witness :
    stop
        { vboxPath := "VBoxManage",
          statusOutcome := some ⟨0, "VMState=" ++ qs ++ "running" ++ qs, ""⟩,
          T := 1, poweroffLaunchOk := true, poll := fun j => decide (3 ≤ j),
          waitOk := true } "cuckoo1" 10 =
      some ([Action.exec ["VBoxManage", "showvminfo", "cuckoo1", "--machinereadable"],
             Action.setStatus "cuckoo1" RUNNING,
             Action.exec ["VBoxManage", "controlvm", "cuckoo1", "poweroff"]]
            ++ List.replicate (3 - 1) Action.terminate
            ++ [Action.waitStatus "cuckoo1" [POWEROFF, ABORTED, SAVED]],
        Outcome.ok) ∧
    1 ≤ 3 - 1 :=
  C2_stop_timeout_amended _ "cuckoo1" 10 3 (by decide) rfl (by decide)
    (by decide) (by decide) (by decide) rfl

/-- Claim C4: when the fresh status query reports `RUNNING`, `start`
fails with the `AlreadyRunning` precondition error ("Trying to start an
already started vm ..."), and the only external command issued is the
status query itself — no snapshot restore and no start command. -/
theorem C4_already_running (env : StartEnv) (label : String)
    (h : vbStatus env.statusOutcome = some RUNNING) :
    start env label =
      ([Action.exec [env.vboxPath, "showvminfo", label, "--machinereadable"],
        Action.setStatus label RUNNING],
       Outcome.machineError ("Trying to start an already started vm " ++ label)) ∧
    execCmds (start env label).1 =
      [[env.vboxPath, "showvminfo", label, "--machinereadable"]] := by
  have h1 : start env label =
      ([Action.exec [env.vboxPath, "showvminfo", label, "--machinereadable"],
        Action.setStatus label RUNNING],
       Outcome.machineError ("Trying to start an already started vm " ++ label)) := by
    simp [start, statusRun, h]
  exact ⟨h1, by rw [h1]; rfl⟩

/-- Witness for claim C4 at a concrete input: a machine whose query output
reads `VMState="running"`. -/
theorem C4_already_running_witness :
    start
        { vboxPath := "VBoxManage", mode := "headless",
          statusOutcome := some ⟨0, "VMState=" ++ qs ++ "running" ++ qs, ""⟩,
          snapshot := some "clean", nictraceOpt := false, pcapPath := "/tmp/p.pcap",
          restoreOutcome := some 0, startOutcome := some "", wait1Ok := true,
          wait2Ok := true, pcap1 := CallOutcome.success,
          pcap2 := CallOutcome.success } "cuckoo1" =
      ([Action.exec ["VBoxManage", "showvminfo", "cuckoo1", "--machinereadable"],
        Action.setStatus "cuckoo1" RUNNING],
       Outcome.machineError ("Trying to start an already started vm " ++ "cuckoo1")) ∧
    execCmds (start
        { vboxPath := "VBoxManage", mode := "headless",
          statusOutcome := some ⟨0, "VMState=" ++ qs ++ "running" ++ qs, ""⟩,
          snapshot := some "clean", nictraceOpt := false, pcapPath := "/tmp/p.pcap",
          restoreOutcome := some 0, startOutcome := some "", wait1Ok := true,
          wait2Ok := true, pcap1 := CallOutcome.success,
          pcap2 := CallOutcome.success } "cuckoo1").1 =
      [["VBoxManage", "showvminfo", "cuckoo1", "--machinereadable"]] :=
  C4_already_running _ "cuckoo1" (by decide)

/-- Claim C5: when the fresh status query reports `POWEROFF` or `ABORTED`,
`stop` fails with the `AlreadyStopped` precondition error ("Trying to stop
an already stopped vm ..."), and the only external command issued is the
status query itself — no poweroff command. -/
theorem C5_already_stopped (env : StopEnv) (label : String) (fuel : Nat)
    (s : String) (h : vbStatus env.statusOutcome = some s)
    (hs : s = POWEROFF ∨ s = ABORTED) :
    stop env label fuel =
      some (([Action.exec [env.vboxPath, "showvminfo", label, "--machinereadable"],
              Action.setStatus label s]),
        Outcome.machineError ("Trying to stop an already stopped vm " ++ label)) ∧
    execCmds [Action.exec [env.vboxPath, "showvminfo", label, "--machinereadable"],
        Action.setStatus label s] =
      [[env.vboxPath, "showvminfo", label, "--machinereadable"]] := by
  constructor
  · simp only [stop, statusRun, h]
    rw [if_pos hs]
  · rfl

/-- Witness for claim C5 at a concrete input: a machine whose query output
reads `VMState="poweroff"`. -/
theorem C5_already_stopped_witness :
    stop
        { vboxPath := "VBoxManage",
          statusOutcome := some ⟨0, "VMState=" ++ qs ++ "poweroff" ++ qs, ""⟩,
          T := 5, poweroffLaunchOk := true, poll := fun _ => true,
          waitOk := true } "cuckoo1" 3 =
      some (([Action.exec ["VBoxManage", "showvminfo", "cuckoo1", "--machinereadable"],
              Action.setStatus "cuckoo1" "poweroff"]),
        Outcome.machineError ("Trying to stop an already stopped vm " ++ "cuckoo1")) ∧
    execCmds [Action.exec ["VBoxManage", "showvminfo", "cuckoo1", "--machinereadable"],
        Action.setStatus "cuckoo1" "poweroff"] =
      [["VBoxManage", "showvminfo", "cuckoo1", "--machinereadable"]] :=
  C5_already_stopped _ "cuckoo1" 3 "poweroff" (by decide) (Or.inl rfl)

/-- Claim C7: `dump_memory` selects the diagnostic command `dumpvmcore`
exactly when the first character of the captured version string is `5`,
and `dumpguestcore` otherwise; the chosen command is what the issued
`debugvm` command vector carries. -/
theorem C7_version_dispatch (env : DumpMemEnv) (label path : String)
    (oc : ProcOutcome) (h : env.versionOutcome = some oc) :
    ∃ out, dump_memory env label path =
      ([Action.exec [env.vboxPath, "-v"],
        Action.exec [env.vboxPath, "debugvm", label,
          (if oc.stdout.data.head? = some '5' then "dumpvmcore"
            else "dumpguestcore"),
          "--filename", path]], out) := by
  have hd : (if pyStartsWith "5" oc.stdout then "dumpvmcore" else "dumpguestcore")
      = (if oc.stdout.data.head? = some '5' then "dumpvmcore"
          else "dumpguestcore") := by
    by_cases h5 : oc.stdout.data.head? = some '5'
    · rw [if_pos h5, if_pos ((pyStartsWith_five oc.stdout).mpr h5)]
    · rw [if_neg h5, if_neg (fun ht => h5 ((pyStartsWith_five oc.stdout).mp ht))]
  simp only [dump_memory, h]
  rw [hd]
  by_cases hl : env.dumpLaunchOk
  · rw [if_pos hl]
    exact ⟨Outcome.ok, rfl⟩
  · rw [if_neg hl]
    exact ⟨_, rfl⟩

/-- Witness for claim C7 at the spec's two example inputs: a version probe
printing `5.0.10` selects `dumpvmcore`; one printing `4.3.2` selects
`dumpguestcore`. -/
theorem C7_version_dispatch_witness :
    (∃ out, dump_memory ⟨"VBoxManage", some ⟨0, "5.0.10", ""⟩, true⟩
        "cuckoo1" "/tmp/memory.dmp" =
      ([Action.exec ["VBoxManage", "-v"],
        Action.exec ["VBoxManage", "debugvm", "cuckoo1", "dumpvmcore",
          "--filename", "/tmp/memory.dmp"]], out)) ∧
    (∃ out, dump_memory ⟨"VBoxManage", some ⟨0, "4.3.2", ""⟩, true⟩
        "cuckoo1" "/tmp/memory.dmp" =
      ([Action.exec ["VBoxManage", "-v"],
        Action.exec ["VBoxManage", "debugvm", "cuckoo1", "dumpguestcore",
          "--filename", "/tmp/memory.dmp"]], out)) :=
  ⟨C7_version_dispatch _ "cuckoo1" "/tmp/memory.dmp" ⟨0, "5.0.10", ""⟩ rfl,
   C7_version_dispatch _ "cuckoo1" "/tmp/memory.dmp" ⟨0, "4.3.2", ""⟩ rfl⟩

/-- Claim C10: when the fresh status query yields the `Error` sentinel
(status could not be determined), `start` passes its precondition check —
`Error` is not `RUNNING` — and proceeds to issue the snapshot-restore
command right after the status query, rather than failing fast. -/
theorem C10_error_status_proceeds (env : StartEnv) (label : String)
    (h : vbStatus env.statusOutcome = some ERROR) :
    ∃ rest, execCmds (start env label).1 =
      [env.vboxPath, "showvminfo", label, "--machinereadable"]
        :: restoreArgs env label :: rest := by
  obtain ⟨tail, htail⟩ : ∃ tail, (startAfter env label).1
      = Action.exec (restoreArgs env label) :: tail := by
    obtain ⟨vb, mo, so, snap, nic, pp, ro, sto, w1, w2, p1, p2⟩ := env
    simp only [startAfter]
    rcases ro with _ | ret
    · exact ⟨[], rfl⟩
    · by_cases hr : ret ≠ 0
      · simp [hr]
      · rcases sto with _ | err
        · cases w1 <;> simp [hr]
        · by_cases he : err ≠ ""
          · cases w1 <;> simp [hr, he]
          · cases w1 <;> cases w2 <;> cases nic <;>
              simp [hr, he, List.append_assoc]
  have hER : ¬(ERROR = RUNNING) := by decide
  refine ⟨execCmds tail, ?_⟩
  simp only [start, statusRun, h]
  rw [if_neg hER, htail]
  simp [execCmds]

/-- Witness for claim C10 at a concrete input: the status query exits
non-zero, so `_status` yields the `Error` sentinel, and `start` still
issues the snapshot-restore command. -/
theorem C10_error_status_proceeds_witness :
    ∃ rest, execCmds (start
        { vboxPath := "VBoxManage", mode := "headless",
          statusOutcome := some ⟨1, "", "access denied"⟩,
          snapshot := some "clean", nictraceOpt := false, pcapPath := "/tmp/p.pcap",
          restoreOutcome := some 0, startOutcome := some "", wait1Ok := true,
          wait2Ok := true, pcap1 := CallOutcome.success,
          pcap2 := CallOutcome.success } "cuckoo1").1 =
      ["VBoxManage", "showvminfo", "cuckoo1", "--machinereadable"]
        :: restoreArgs
          { vboxPath := "VBoxManage", mode := "headless",
            statusOutcome := some ⟨1, "", "access denied"⟩,
            snapshot := some "clean", nictraceOpt := false, pcapPath := "/tmp/p.pcap",
            restoreOutcome := some 0, startOutcome := some "", wait1Ok := true,
            wait2Ok := true, pcap1 := CallOutcome.success,
            pcap2 := CallOutcome.success } "cuckoo1" :: rest :=
  C10_error_status_proceeds _ "cuckoo1" (by decide)

/-- Witness for claim C9 at a concrete input: the line `abc"defg`
(one quote character) yields the label `defg`. -/
theorem C9_single_quote_line_witness :
    (qc ∉ ("abc").data) ∧ (qc ∉ ("defg").data) ∧
    (nlc ∉ ("abc").data) ∧ (nlc ∉ ("defg").data) ∧
    String.mk ("defg").data ≠ "<inaccessible>" ∧
    listParse (String.mk (("abc").data ++ qc :: ("defg").data))
      = [String.mk ("defg").data] :=
  ⟨by decide, by decide, by decide, by decide, by decide,
    C9_single_quote_line ("abc").data ("defg").data
      (by decide) (by decide) (by decide) (by decide) (by decide)⟩

end VBox
